import Mathlib

/-!
Verification of the Resurfacing & Pattern-Learning Engine of the claw-app
backend, as a shallow embedding in Lean 4.

Conventions of the embedding:
* Python floats are modelled as exact rationals (`ℚ`); the scoring rules only
  ever add and compare the decimal constants 0.5, 0.2, 0.3, 0.1, 0.7, 1.0.
* `datetime` values are modelled as rational numbers of seconds; the code's
  calls to `datetime.utcnow()` become an explicit `now : ℚ` argument.
* Optional arguments are `Option` values.  Python tests them for *truthiness*
  (`if lat and lng:`), so `0.0` and `""` count as absent; this is embedded
  by `pyTruthy` / `pyTruthyStr` below.
* The haversine great-circle formula (`_find_nearest_store`, transcendental
  trigonometry) is kept abstract: every definition that needs a distance
  takes it as an explicit function parameter `dist`.  No claim below depends
  on the numerical value of a distance.
* Python exceptions are modelled with `Option`/`Except` result types.
-/

namespace ClawApp

/-- Python truthiness of an optional float: `None` and `0.0` are falsy. -/
def pyTruthy : Option ℚ → Bool
  | none => false
  | some x => decide (x ≠ 0)

/-- Python truthiness of an optional string: `None` and `""` are falsy. -/
def pyTruthyStr : Option String → Bool
  | none => false
  | some s => decide (s ≠ "")

/-- Python `int()` applied to a rational: truncation toward zero
(`⌊q⌋` for nonnegative `q`, `⌈q⌉` for negative `q`). -/
def pyInt (q : ℚ) : ℤ :=
  if 0 ≤ q then ⌊q⌋ else ⌈q⌉

/-- Python `a in b` on strings: substring containment (after whatever
case-normalisation the caller applied). -/
def strIn (a b : String) : Bool :=
  decide (a.toList <:+: b.toList)

/-- Python `str.lower()`: character-wise lower-casing (ASCII letters, which
is all the engine's trigger labels use). -/
def pyLower (s : String) : String :=
  ⟨s.data.map Char.toLower⟩

/-! ## Pattern analyzer (`app/services/pattern_analyzer.py`) -/

/-- One row of the `ICELANDIC_STORES` registry (`app/core/config.py`):
only the fields `_find_nearest_store` reads. -/
structure Store where
  chain : String
  lat : ℚ
  lng : ℚ

/-- A `StrikePattern` row, restricted to the fields the scorer reads. -/
structure StrikePattern where
  day_of_week : ℤ
  hour_of_day : ℤ
  near_store : Option String
deriving DecidableEq

/-- A claw as read by `PatternAnalyzer._calculate_resurface_score_with_patterns`:
`category`, `is_priority`, and `expires_at` (used by `Claw.is_expired`). -/
structure PClaw where
  category : Option String
  is_priority : Bool
  expires_at : ℚ
deriving DecidableEq

/-- `PatternAnalyzer._find_nearest_store`: scan the registry keeping the
closest store strictly within 500 m (`if dist < 500 and dist < min_dist`).
`min_dist` starts at `float('inf')`, modelled by an `Option ℚ` accumulator. -/
def findNearestStore (dist : ℚ → ℚ → ℚ → ℚ → ℚ) (stores : List Store)
    (lat lng : ℚ) : Option String :=
  (stores.foldl
    (fun acc store =>
      let d := dist lat lng store.lat store.lng
      match acc.2 with
      | none => if d < 500 then (some store.chain, some d) else acc
      | some m => if d < 500 ∧ d < m then (some store.chain, some d) else acc)
    ((none : Option String), (none : Option ℚ))).1

/-- The `near_store` value computed by `PatternAnalyzer.record_strike`:
`if lat and lng: near_store = _find_nearest_store(lat, lng)` (truthiness). -/
def recordedNearStore (dist : ℚ → ℚ → ℚ → ℚ → ℚ) (stores : List Store)
    (lat lng : Option ℚ) : Option String :=
  if pyTruthy lat && pyTruthy lng then
    findNearestStore dist stores (lat.getD 0) (lng.getD 0)
  else none

/-- The `time_to_strike` value computed by `PatternAnalyzer.record_strike`:
`int((now - captured_at).total_seconds() / 3600) if captured_at else 0`. -/
def timeToStrike (now : ℚ) (capturedAt : Option ℚ) : ℤ :=
  match capturedAt with
  | some c => pyInt ((now - c) / 3600)
  | none => 0

/-- Per-event day-of-week test of the scorer: `p.day_of_week == dow`. -/
def dowHit (p : StrikePattern) (dow : ℤ) : Bool :=
  decide (p.day_of_week = dow)

/-- Per-event hour test of the scorer: `abs(p.hour_of_day - hour) <= 2`
(plain absolute difference of integers, no modular wrap-around). -/
def hourHit (p : StrikePattern) (hour : ℤ) : Bool :=
  decide ((p.hour_of_day - hour).natAbs ≤ 2)

/-- `dow_matches = sum(1 for p in patterns if p.day_of_week == dow)`. -/
def dowMatches (patterns : List StrikePattern) (dow : ℤ) : ℕ :=
  (patterns.filter (fun p => dowHit p dow)).length

/-- `hour_matches = sum(1 for p in patterns if abs(p.hour_of_day - hour) <= 2)`. -/
def hourMatches (patterns : List StrikePattern) (hour : ℤ) : ℕ :=
  (patterns.filter (fun p => hourHit p hour)).length

/-- `store_matches = sum(1 for p in patterns if p.near_store == near_store)`. -/
def storeMatches (patterns : List StrikePattern) (store : String) : ℕ :=
  (patterns.filter (fun p => p.near_store = some store)).length

/-- The abbreviation table `['Mon','Tue','Wed','Thu','Fri','Sat','Sun'][dow]`
used in the day-match reason string (indices 0–6 come from `weekday()`). -/
def dayAbbrev (dow : ℤ) : String :=
  (["Mon", "Tue", "Wed", "Thu", "Fri", "Sat", "Sun"]).getD dow.toNat ""

/-- String form of an optional category as a Python f-string renders it
(`None` prints as `"None"`). -/
def catStr : Option String → String
  | some s => s
  | none => "None"

/-- Whether the day-of-week rule fires: `dow_matches > len(patterns) * 0.3`. -/
def dayRule (patterns : List StrikePattern) (dow : ℤ) : Bool :=
  decide ((dowMatches patterns dow : ℚ) > (patterns.length : ℚ) * (3/10))

/-- Whether the hour rule fires: `hour_matches > len(patterns) * 0.3`. -/
def hourRule (patterns : List StrikePattern) (hour : ℤ) : Bool :=
  decide ((hourMatches patterns hour : ℚ) > (patterns.length : ℚ) * (3/10))

/-- The `near_store` found by the location rule, `None` unless current
coordinates are truthy and the category is one of product/restaurant/task. -/
def scorerNearStore (dist : ℚ → ℚ → ℚ → ℚ → ℚ) (stores : List Store)
    (claw : PClaw) (currentLat currentLng : Option ℚ) : Option String :=
  if pyTruthy currentLat && pyTruthy currentLng &&
      decide (claw.category = some "product" ∨ claw.category = some "restaurant" ∨
        claw.category = some "task") then
    findNearestStore dist stores (currentLat.getD 0) (currentLng.getD 0)
  else none

/-- Whether the location rule fires: a truthy store was found within 500 m
and it appears in the pattern history (`store_matches > 0`). -/
def locRule (dist : ℚ → ℚ → ℚ → ℚ → ℚ) (stores : List Store) (claw : PClaw)
    (patterns : List StrikePattern) (currentLat currentLng : Option ℚ) : Bool :=
  match scorerNearStore dist stores claw currentLat currentLng with
  | some s => pyTruthyStr (some s) && decide (0 < storeMatches patterns s)
  | none => false

/-- The score accumulated by the sequential rule applications of
`_calculate_resurface_score_with_patterns` before the expiry penalty:
`0.5` base, `+0.2` day match, `+0.2` hour match, `+0.3` location match,
`+0.1` priority. -/
def rawScore (dist : ℚ → ℚ → ℚ → ℚ → ℚ) (stores : List Store) (claw : PClaw)
    (patterns : List StrikePattern) (currentLat currentLng : Option ℚ)
    (currentHour currentDow : ℤ) : ℚ :=
  1/2
    + (if dayRule patterns currentDow then 2/10 else 0)
    + (if hourRule patterns currentHour then 2/10 else 0)
    + (if locRule dist stores claw patterns currentLat currentLng then 3/10 else 0)
    + (if claw.is_priority then 1/10 else 0)

/-- `Claw.is_expired`: `datetime.utcnow() > self.expires_at`. -/
def isExpired (now : ℚ) (claw : PClaw) : Bool :=
  decide (now > claw.expires_at)

/-- The score after the expiry penalty (`score = max(0.1, score - 0.3)` when
expired), still before the final clamp. -/
def adjScore (dist : ℚ → ℚ → ℚ → ℚ → ℚ) (stores : List Store) (now : ℚ)
    (claw : PClaw) (patterns : List StrikePattern)
    (currentLat currentLng : Option ℚ) (currentHour currentDow : ℤ) : ℚ :=
  let s := rawScore dist stores claw patterns currentLat currentLng
    currentHour currentDow
  if isExpired now claw then max (1/10) (s - 3/10) else s

/-- The reason fragments appended by the rules, in source order. -/
def scoreReasons (dist : ℚ → ℚ → ℚ → ℚ → ℚ) (stores : List Store) (now : ℚ)
    (claw : PClaw) (patterns : List StrikePattern)
    (currentLat currentLng : Option ℚ) (currentHour currentDow : ℤ) :
    List String :=
  (if dayRule patterns currentDow then
    ["You often strike " ++ catStr claw.category ++ " items on " ++
      dayAbbrev currentDow] else [])
  ++ (if hourRule patterns currentHour then ["Good time of day for you"] else [])
  ++ (match scorerNearStore dist stores claw currentLat currentLng with
      | some s =>
        if pyTruthyStr (some s) && decide (0 < storeMatches patterns s) then
          ["You're near " ++ s ++ "!"]
        else []
      | none => [])
  ++ (if claw.is_priority then ["VIP item"] else [])
  ++ (if isExpired now claw then ["Expiring soon!"] else [])

/-- `PatternAnalyzer._calculate_resurface_score_with_patterns`: the pattern
based relevance scorer.  (`calculate_resurface_score` applies the identical
rule body after fetching `patterns` itself and defaulting hour/day-of-week
from `now`; its rules are this same function.)  Returns (score, reason). -/
def calcResurfaceScore (dist : ℚ → ℚ → ℚ → ℚ → ℚ) (stores : List Store)
    (now : ℚ) (claw : PClaw) (patterns : List StrikePattern)
    (currentLat currentLng : Option ℚ) (currentHour currentDow : ℤ) :
    ℚ × String :=
  if patterns.isEmpty then
    if claw.category = some "product" ∨ claw.category = some "restaurant" then
      (6/10, "Shopping item - check when near stores")
    else (1/2, "No pattern data yet")
  else
    let s := adjScore dist stores now claw patterns currentLat currentLng
      currentHour currentDow
    let reasons := scoreReasons dist stores now claw patterns currentLat
      currentLng currentHour currentDow
    (min 1 (max 0 s),
      if reasons.isEmpty then "Based on your patterns"
      else String.intercalate " • " reasons)

/-! ## Resurfacing engine (`app/services/resurfacing.py`) -/

/-- A claw as read by `ResurfacingEngine` (`app/models/claw.py` fields). -/
structure RClaw where
  user_id : String
  status : String
  expires_at : ℚ
  location_lat : Option ℚ
  location_lng : Option ℚ
  location_radius_meters : ℚ
  time_context : Option String
  app_trigger : Option String
  surface_count : ℤ
  last_surfaced_at : Option ℚ
deriving DecidableEq

/-- The context dict passed to `check_and_resurface`: the engine reads
`context.get("location")` and `context.get("active_app")`. -/
structure Context where
  location : Option (ℚ × ℚ)
  active_app : Option String
deriving DecidableEq

/-- The `time_ranges` dict of `_check_time_context`.  The outer `Option` is
dict membership; the inner `Option` is the stored value, which is `None`
for `"weekend"` (unpacking it raises `TypeError`). -/
def timeRanges (tc : String) : Option (Option (ℤ × ℤ)) :=
  if tc = "morning" then some (some (6, 12))
  else if tc = "afternoon" then some (some (12, 17))
  else if tc = "evening" then some (some (17, 22))
  else if tc = "night" then some (some (22, 6))
  else if tc = "weekend" then some none
  else none

/-- `ResurfacingEngine._check_time_context`.  Returns `none` when the Python
code would raise (`start, end = None` for `"weekend"`); otherwise the
boolean result: in-range test, with wrap-around when `start >= end`. -/
def checkTimeContext (tc : String) (currentHour : ℤ) : Option Bool :=
  match timeRanges tc with
  | none => some false
  | some none => none
  | some (some (s, e)) =>
    some (if s < e then decide (s ≤ currentHour ∧ currentHour < e)
          else decide (currentHour ≥ s ∨ currentHour < e))

/-- `max(scores) if scores else 0.0`. -/
def listMax : List ℚ → ℚ
  | [] => 0
  | h :: t => t.foldl max h

/-- `ResurfacingEngine._calculate_relevance_score`: builds the candidate
score list in source order (location 0.9, time context 0.7, app trigger 1.0,
over-surfacing penalty 0.1, recently-surfaced 0.0) and returns its maximum.
`none` models a raised exception (from `_check_time_context`). -/
def calcRelevanceScore (dist : ℚ → ℚ → ℚ → ℚ → ℚ) (now : ℚ)
    (currentHour : ℤ) (claw : RClaw) (ctx : Context) : Option ℚ :=
  let s0 : List ℚ := []
  let s1 :=
    if pyTruthy claw.location_lat && pyTruthy claw.location_lng &&
        ctx.location.isSome then
      match ctx.location with
      | some (ulat, ulng) =>
        if dist (claw.location_lat.getD 0) (claw.location_lng.getD 0)
            ulat ulng ≤ claw.location_radius_meters then
          s0 ++ [9/10]
        else s0
      | none => s0
    else s0
  let s2? : Option (List ℚ) :=
    if pyTruthyStr claw.time_context then
      match checkTimeContext (claw.time_context.getD "") currentHour with
      | none => none
      | some b => some (if b then s1 ++ [7/10] else s1)
    else some s1
  match s2? with
  | none => none
  | some s2 =>
    let s3 :=
      if pyTruthyStr claw.app_trigger && pyTruthyStr ctx.active_app then
        if strIn (pyLower (claw.app_trigger.getD ""))
            (pyLower (ctx.active_app.getD "")) then
          s2 ++ [1]
        else s2
      else s2
    let s4 := if claw.surface_count > 3 then s3 ++ [1/10] else s3
    let s5 :=
      match claw.last_surfaced_at with
      | some t => if (now - t) / 3600 < 4 then s4 ++ [0] else s4
      | none => s4
    some (listMax s5)

/-- `ResurfacingEngine.check_and_resurface`: filter the user's active,
unexpired claws, score each against the context, keep scores `> 0.7`,
sort descending by score (stably, as Python's `sort` with `reverse=True`),
and return the first 3.  The returned pairs carry the relevance score
computed for this pass; the `last_surfaced_at`/`surface_count` bookkeeping
side effect on the returned claws is not part of the value modelled here. -/
def checkAndResurface (dist : ℚ → ℚ → ℚ → ℚ → ℚ) (now : ℚ)
    (currentHour : ℤ) (userId : String) (db : List RClaw) (ctx : Context) :
    Option (List (RClaw × ℚ)) :=
  let claws := db.filter (fun c =>
    c.user_id == userId && c.status == "active" && decide (c.expires_at > now))
  (claws.mapM (fun c =>
      (calcRelevanceScore dist now currentHour c ctx).map (fun s => (c, s)))).map
    (fun scored =>
      ((scored.filter (fun p => decide (p.2 > 7/10))).mergeSort
        (fun a b => b.2 ≤ a.2)).take 3)

/-! ## Merge endpoint (`app/api/v1/endpoints/claws.py`, `merge_claws`) -/

/-- A claw as read and written by `merge_claws`.  `tags` is the Python
`set(...)` of the claw's tag list (`get_tags`/`set_tags` round-trip a list;
the endpoint works with its set). -/
structure MClaw where
  id : String
  user_id : String
  tags : Finset String
  expires_at : Option ℚ
  content : String
  status : String
deriving DecidableEq

deriving instance DecidableEq for Except

/-- `all_tags = set(keep_claw.get_tags())`, then `all_tags.update(claw.get_tags())`
for every merge claw, in order. -/
def mergedTags (keep : MClaw) (merges : List MClaw) : Finset String :=
  merges.foldl (fun acc c => acc ∪ c.tags) keep.tags

/-- The step of the `latest_expiry` loop:
`if claw.expires_at and (not latest_expiry or claw.expires_at > latest_expiry)`. -/
def expiryStep (acc : Option ℚ) (c : MClaw) : Option ℚ :=
  match c.expires_at with
  | none => acc
  | some e =>
    match acc with
    | none => some e
    | some l => if e > l then some e else acc

/-- `latest_expiry` after the loop, starting from `keep_claw.expires_at`. -/
def latestExpiry (keep : MClaw) (merges : List MClaw) : Option ℚ :=
  merges.foldl expiryStep keep.expires_at

/-- Spec-side maximum of a list of optional expiries: the greatest value
present, `none` when none is present.  Used to state that the source's
`latest_expiry` loop computes the maximum expiry among the involved items. -/
def maxOptExpiry (l : List (Option ℚ)) : Option ℚ :=
  l.foldr
    (fun o acc =>
      match o, acc with
      | none, a => a
      | some e, none => some e
      | some e, some m => some (max e m))
    none

/-- The mutation `merge_claws` applies to the kept claw: merged tag set,
`expires_at = latest_expiry` when that is truthy, and the
`"\n[Merged N similar items]"` content marker. -/
def updateKeep (keep : MClaw) (merges : List MClaw) : MClaw :=
  { keep with
    tags := mergedTags keep merges
    expires_at :=
      match latestExpiry keep merges with
      | some e => some e
      | none => keep.expires_at
    content := keep.content ++ "\n[Merged " ++ toString merges.length ++
      " similar items]" }

/-- `claw.status = ClawStatus.ARCHIVED` for a merged claw. -/
def archiveClaw (c : MClaw) : MClaw :=
  { c with status := "archived" }

/-- The `merge_claws` endpoint over an in-memory table of claws:
fetch the keep claw (`first()` on id+owner), fetch the merge claws
(`id.in_(...)` + owner), run the three validations, then apply the
mutations and commit.  Errors carry the HTTP detail strings. -/
def mergeClaws (db : List MClaw) (userId keepId : String)
    (mergeIds : List String) : Except String (List MClaw) :=
  match (db.filter (fun c => c.id == keepId && c.user_id == userId)).head? with
  | none => .error "Keep claw not found"
  | some keep =>
    let merges := db.filter (fun c =>
      decide (c.id ∈ mergeIds) && c.user_id == userId)
    if merges.length ≠ mergeIds.length then
      .error "Some merge claws not found"
    else if keepId ∈ mergeIds then
      .error "Cannot merge a claw into itself"
    else
      .ok (db.map (fun c =>
        if c.id == keepId && c.user_id == userId then updateKeep keep merges
        else if decide (c.id ∈ mergeIds) && c.user_id == userId then
          archiveClaw c
        else c))

/-! ## Shared auxiliary definitions and lemmas -/

/-- A trivial distance function, used to instantiate the abstract `dist`
parameter on concrete inputs where no location rule can fire anyway. -/
def zeroDist : ℚ → ℚ → ℚ → ℚ → ℚ := fun _ _ _ _ => 0

theorem rawScore_lower_bound (dist : ℚ → ℚ → ℚ → ℚ → ℚ) (stores : List Store)
    (claw : PClaw) (patterns : List StrikePattern)
    (currentLat currentLng : Option ℚ) (currentHour currentDow : ℤ) :
    1/2 ≤ rawScore dist stores claw patterns currentLat currentLng
      currentHour currentDow := by
  unfold rawScore
  have h1 : (0:ℚ) ≤ if dayRule patterns currentDow then 2/10 else 0 := by
    split <;> norm_num
  have h2 : (0:ℚ) ≤ if hourRule patterns currentHour then 2/10 else 0 := by
    split <;> norm_num
  have h3 : (0:ℚ) ≤
      if locRule dist stores claw patterns currentLat currentLng then 3/10
      else 0 := by
    split <;> norm_num
  have h4 : (0:ℚ) ≤ if claw.is_priority then 1/10 else 0 := by
    split <;> norm_num
  linarith

/-! ## C1 -/

/-- C1: the relevance score returned by the scorer is always in the closed
interval `[0, 1]`: the no-history branch returns 0.6 or 0.5, and every other
path passes through the final clamp `min(1.0, max(0.0, score))`. -/
theorem score_in_unit_interval (dist : ℚ → ℚ → ℚ → ℚ → ℚ)
    (stores : List Store) (now : ℚ) (claw : PClaw)
    (patterns : List StrikePattern) (currentLat currentLng : Option ℚ)
    (currentHour currentDow : ℤ) :
    0 ≤ (calcResurfaceScore dist stores now claw patterns currentLat
        currentLng currentHour currentDow).1 ∧
      (calcResurfaceScore dist stores now claw patterns currentLat
        currentLng currentHour currentDow).1 ≤ 1 := by
  unfold calcResurfaceScore
  split
  · split <;> norm_num
  · refine ⟨le_min (by norm_num) (le_max_left 0 _), min_le_left 1 _⟩

/-! ## C7 -/

/-- C7 counterexample: `record_strike` does *not* clamp `time_to_strike` to
be at least 0.  For `capturedAt` two hours later than `now` the recorded
value is `-2`, not `0` as the claim states: the code computes
`int((now - captured_at).total_seconds() / 3600)` with no `max(0, ·)`. -/
theorem timeToStrike_future_not_clamped :
    timeToStrike 0 (some 7200) = -2 ∧ timeToStrike 0 (some 7200) ≠ 0 := by
  have hq : ((0:ℚ) - 7200) / 3600 = ((-2 : ℤ) : ℚ) := by norm_num
  have h : timeToStrike 0 (some 7200) = -2 := by
    simp only [timeToStrike, pyInt, hq]
    rw [if_neg (by norm_num), Int.ceil_intCast]
  exact ⟨h, by rw [h]; decide⟩

/-- C7 amended: `hoursToStrike` is the truncation toward zero (Python
`int()`) of `(now - capturedAt) / 1 hour`, with no clamping.  When
`capturedAt ≤ now` this agrees with the claimed floor and is nonnegative;
`capturedAt = now - 50 hours` yields `50`; but when `capturedAt` is at
least one hour later than `now`, the result is negative (≤ -1), not 0. -/
theorem timeToStrike_characterization (now c : ℚ) :
    (c ≤ now → timeToStrike now (some c) = ⌊(now - c) / 3600⌋ ∧
      0 ≤ timeToStrike now (some c)) ∧
    timeToStrike now (some (now - 180000)) = 50 ∧
    (now + 3600 ≤ c → timeToStrike now (some c) ≤ -1) := by
  refine ⟨fun h => ?_, ?_, fun h => ?_⟩
  · have hq : (0:ℚ) ≤ (now - c) / 3600 :=
      div_nonneg (by linarith) (by norm_num)
    have he : timeToStrike now (some c) = ⌊(now - c) / 3600⌋ := by
      simp [timeToStrike, pyInt, hq]
    exact ⟨he, he ▸ Int.floor_nonneg.2 hq⟩
  · have hq : now - (now - 180000) = 180000 := by ring
    have hq2 : (180000 : ℚ) / 3600 = 50 := by norm_num
    simp [timeToStrike, pyInt, hq, hq2]
  · have hq : (now - c) / 3600 ≤ -1 := by
      rw [div_le_iff₀ (by norm_num : (0:ℚ) < 3600)]
      linarith
    have hneg : ¬ (0:ℚ) ≤ (now - c) / 3600 := by linarith
    simp only [timeToStrike, pyInt, if_neg hneg]
    exact Int.ceil_le.2 (by exact_mod_cast hq)

/-- C7 witness: the characterization applied at concrete times — a capture
50 hours in the past records the claimed floor, and a capture two hours in
the future records a negative value. -/
theorem timeToStrike_characterization_witness :
    timeToStrike 180000 (some 0) = ⌊((180000 : ℚ) - 0) / 3600⌋ ∧
    timeToStrike 0 (some 7200) ≤ -1 :=
  ⟨((timeToStrike_characterization 180000 0).1 (by norm_num)).1,
    (timeToStrike_characterization 0 7200).2.2 (by norm_num)⟩

/-! ## C9 -/

theorem scorerNearStore_zero_lat (dist : ℚ → ℚ → ℚ → ℚ → ℚ)
    (stores : List Store) (claw : PClaw) (lng : Option ℚ) :
    scorerNearStore dist stores claw (some 0) lng = none ∧
      scorerNearStore dist stores claw none lng = none := by
  constructor <;> simp [scorerNearStore, pyTruthy]

theorem scorerNearStore_zero_lng (dist : ℚ → ℚ → ℚ → ℚ → ℚ)
    (stores : List Store) (claw : PClaw) (lat : Option ℚ) :
    scorerNearStore dist stores claw lat (some 0) = none ∧
      scorerNearStore dist stores claw lat none = none := by
  constructor <;> simp [scorerNearStore, pyTruthy]

/-- C9: a latitude or longitude equal to 0 is treated like an absent
coordinate, because the code tests `if lat and lng:` /
`if current_lat and current_lng ...:` for truthiness.  `record_strike`
then matches no store, and the scorer produces exactly the result it
produces with no coordinates at all. -/
theorem zero_coordinate_treated_as_absent (dist : ℚ → ℚ → ℚ → ℚ → ℚ)
    (stores : List Store) (now : ℚ) (claw : PClaw)
    (patterns : List StrikePattern) (lat lng : Option ℚ)
    (currentHour currentDow : ℤ) :
    recordedNearStore dist stores (some 0) lng = none ∧
    recordedNearStore dist stores lat (some 0) = none ∧
    recordedNearStore dist stores none lng = none ∧
    calcResurfaceScore dist stores now claw patterns (some 0) lng
        currentHour currentDow =
      calcResurfaceScore dist stores now claw patterns none lng
        currentHour currentDow ∧
    calcResurfaceScore dist stores now claw patterns lat (some 0)
        currentHour currentDow =
      calcResurfaceScore dist stores now claw patterns lat none
        currentHour currentDow := by
  refine ⟨by simp [recordedNearStore, pyTruthy], ?_,
    by simp [recordedNearStore, pyTruthy], ?_, ?_⟩
  · simp [recordedNearStore, pyTruthy]
  · have h := scorerNearStore_zero_lat dist stores claw lng
    simp only [calcResurfaceScore, adjScore, rawScore, locRule, scoreReasons,
      h.1, h.2]
  · have h := scorerNearStore_zero_lng dist stores claw lat
    simp only [calcResurfaceScore, adjScore, rawScore, locRule, scoreReasons,
      h.1, h.2]

/-! ## C10 -/

theorem hourMatches_drop_false (hr : ℤ)
    (hfalse : ∀ q : StrikePattern, q.hour_of_day = 23 → hourHit q hr = false) :
    ∀ ps : List StrikePattern,
      hourMatches ps hr =
        hourMatches (ps.filter (fun q => !(q.hour_of_day == 23))) hr := by
  intro ps
  induction ps with
  | nil => rfl
  | cons a t ih =>
    by_cases ha : a.hour_of_day = 23
    · have hh : hourHit a hr = false := hfalse a ha
      simp [hourMatches, List.filter_cons, hh, ha] at ih ⊢
      exact ih
    · simp only [hourMatches, List.filter_cons] at ih ⊢
      have hne : (a.hour_of_day == 23) = false := by
        simpa using ha
      rw [hne]
      simp only [Bool.not_false, if_pos rfl]
      cases hhit : hourHit a hr <;> simp [hhit, ih]

/-- C10: the hour-match rule compares hours by plain absolute difference
with no wrap-around at midnight.  An event at hour 23 is never within ±2 of
current hour 0 or 1 — the computed differences are 23 and 22 — so removing
all hour-23 events never changes the match count at those hours. -/
theorem hour_match_no_midnight_wraparound (ps : List StrikePattern)
    (p : StrikePattern) (hp : p.hour_of_day = 23) :
    hourHit p 0 = false ∧ hourHit p 1 = false ∧
    (p.hour_of_day - 0).natAbs = 23 ∧ (p.hour_of_day - 1).natAbs = 22 ∧
    hourMatches ps 0 =
      hourMatches (ps.filter (fun q => !(q.hour_of_day == 23))) 0 ∧
    hourMatches ps 1 =
      hourMatches (ps.filter (fun q => !(q.hour_of_day == 23))) 1 := by
  have h0 : ∀ q : StrikePattern, q.hour_of_day = 23 → hourHit q 0 = false := by
    intro q hq; simp [hourHit, hq]
  have h1 : ∀ q : StrikePattern, q.hour_of_day = 23 → hourHit q 1 = false := by
    intro q hq; simp [hourHit, hq]
  exact ⟨h0 p hp, h1 p hp, by simp [hp], by simp [hp],
    hourMatches_drop_false 0 h0 ps, hourMatches_drop_false 1 h1 ps⟩

/-- C10 witness: concrete instance of the wrap-around theorem at an event
with hour 23. -/
theorem hour_match_no_midnight_wraparound_witness :
    hourHit ⟨0, 23, none⟩ 0 = false :=
  (hour_match_no_midnight_wraparound [⟨0, 23, none⟩] ⟨0, 23, none⟩ rfl).1

/-! ## C2 -/

/-- A claw surfaced one hour ago (at 96400 s, `now` being 100000 s) whose
app trigger matches the context. -/
def fatigueClaw : RClaw :=
  ⟨"u", "active", 1000000, none, none, 200, none, some "instagram", 0,
    some 96400⟩

/-- A context whose active app matches `fatigueClaw`'s trigger. -/
def fatigueCtx : Context := ⟨none, some "Instagram"⟩

theorem fatigueClaw_score :
    calcRelevanceScore zeroDist 100000 10 fatigueClaw fatigueCtx = some 1 := by
  have happ : strIn (pyLower "instagram") (pyLower "Instagram") = true := by
    decide
  have ht : ((100000 : ℚ) - 96400) / 3600 < 4 := by norm_num
  have hm : max (1 : ℚ) 0 = 1 := max_eq_left (by norm_num)
  simp [calcRelevanceScore, fatigueClaw, fatigueCtx, pyTruthy, pyTruthyStr,
    listMax, happ, ht, hm]

/-- C2 is violated by the code: `_calculate_relevance_score` merely appends
`0.0` to the candidate score list when the item was surfaced within the
last 4 hours, and then returns `max(scores)`, so any other matching rule
overrides the suppression.  Here an item surfaced one hour ago whose app
trigger matches the active app scores `1.0` (not `0`) and is surfaced
again by `check_and_resurface`. -/
theorem recently_surfaced_item_not_suppressed :
    ((100000 : ℚ) - 96400) / 3600 < 4 ∧
    calcRelevanceScore zeroDist 100000 10 fatigueClaw fatigueCtx = some 1 ∧
    checkAndResurface zeroDist 100000 10 "u" [fatigueClaw] fatigueCtx =
      some [(fatigueClaw, 1)] := by
  have hsc := fatigueClaw_score
  have h7 : decide ((7:ℚ)/10 < (1:ℚ)) = true := decide_eq_true (by norm_num)
  refine ⟨by norm_num, hsc, ?_⟩
  simp only [checkAndResurface]
  rw [List.filter_cons_of_pos (by decide), List.filter_nil]
  simp only [List.mapM_cons, List.mapM_nil, hsc, Option.map_some']
  simp [h7]

/-! ## C3 -/

/-- C3: `check_and_resurface` returns at most 3 items, every returned item
scored strictly above `0.7` in this pass, and the returned list is ordered
by non-increasing score (the `> 0.7` filter, the stable descending sort
and the `[:3]` truncation). -/
theorem checkAndResurface_cap_threshold_sorted (dist : ℚ → ℚ → ℚ → ℚ → ℚ)
    (now : ℚ) (currentHour : ℤ) (userId : String) (db : List RClaw)
    (ctx : Context) (res : List (RClaw × ℚ))
    (h : checkAndResurface dist now currentHour userId db ctx = some res) :
    res.length ≤ 3 ∧ (∀ p ∈ res, (7:ℚ)/10 < p.2) ∧
      res.Pairwise (fun a b => b.2 ≤ a.2) := by
  unfold checkAndResurface at h
  rw [Option.map_eq_some'] at h
  obtain ⟨scored, hm, h⟩ := h
  subst h
  refine ⟨?_, ?_, ?_⟩
  · rw [List.length_take]
    exact min_le_left 3 _
  · intro p hp
    have hp1 := List.mem_of_mem_take hp
    rw [List.mem_mergeSort] at hp1
    have := List.of_mem_filter hp1
    simpa using this
  · have hs := @List.sorted_mergeSort (RClaw × ℚ)
      (fun a b => decide (b.2 ≤ a.2))
      (fun a b c hab hbc => by
        simp only [decide_eq_true_eq] at hab hbc ⊢
        exact le_trans hbc hab)
      (fun a b => by simpa using le_total b.2 a.2)
      (List.filter (fun p => decide (p.2 > 7/10)) scored)
    have ht := List.Pairwise.sublist (List.take_sublist 3 _) hs
    exact ht.imp (fun hab => by simpa using hab)

theorem fatigueClaw_surfaced :
    checkAndResurface zeroDist 100000 10 "u" [fatigueClaw] fatigueCtx =
      some [(fatigueClaw, 1)] := by
  have hsc := fatigueClaw_score
  have h7 : decide ((7:ℚ)/10 < (1:ℚ)) = true := decide_eq_true (by norm_num)
  simp only [checkAndResurface]
  rw [List.filter_cons_of_pos (by decide), List.filter_nil]
  simp only [List.mapM_cons, List.mapM_nil, hsc, Option.map_some']
  simp [h7]

/-- C3 witness: the cap on a concrete successful invocation. -/
theorem checkAndResurface_cap_witness :
    [(fatigueClaw, (1:ℚ))].length ≤ 3 :=
  (checkAndResurface_cap_threshold_sorted zeroDist 100000 10 "u" [fatigueClaw]
    fatigueCtx [(fatigueClaw, 1)] fatigueClaw_surfaced).1

/-! ## C4 -/

/-- Ten strike events for one category, 4 of them on Thursday
(`day_of_week = 3`), all at hour 9. -/
def c4Patterns : List StrikePattern :=
  List.replicate 4 ⟨3, 9, none⟩ ++ List.replicate 6 ⟨0, 9, none⟩

/-- A non-priority, unexpired (at `now = 0`) task item. -/
def c4Claw : PClaw := ⟨some "task", false, 100⟩

theorem thursdayScoreEval (dist : ℚ → ℚ → ℚ → ℚ → ℚ)
    (stores : List Store) (now : ℚ) (claw : PClaw)
    (patterns : List StrikePattern) (currentHour : ℤ)
    (hcat : claw.category = some "task") (hprio : claw.is_priority = false)
    (hexp : ¬ now > claw.expires_at) (hlen : patterns.length = 10)
    (hdow : dowMatches patterns 3 = 4)
    (hhour : hourMatches patterns currentHour ≤ 3) :
    calcResurfaceScore dist stores now claw patterns none none
      currentHour 3 = (7/10, "You often strike task items on Thu") := by
  have hne : patterns ≠ [] := by
    intro hnil
    rw [hnil] at hlen
    exact absurd hlen (by decide)
  have hday : dayRule patterns 3 = true := by
    simp only [dayRule, hdow, hlen, decide_eq_true_eq]
    norm_num
  have hm3 : (hourMatches patterns currentHour : ℚ) ≤ 3 := by
    exact_mod_cast hhour
  have hhr : hourRule patterns currentHour = false := by
    simp only [hourRule, hlen, decide_eq_false_iff_not, not_lt]
    push_cast
    linarith
  have hns : scorerNearStore dist stores claw none none = none := by
    simp [scorerNearStore, pyTruthy]
  have hloc : locRule dist stores claw patterns none none = false := by
    simp [locRule, hns]
  have hie : isExpired now claw = false := by
    simpa [isExpired] using hexp
  unfold calcResurfaceScore
  rw [if_neg (by simpa [List.isEmpty_iff] using hne)]
  have hadj : adjScore dist stores now claw patterns none none
      currentHour 3 = 7/10 := by
    unfold adjScore rawScore
    rw [hie, hday, hhr, hloc, hprio]
    norm_num
  have hreas : scoreReasons dist stores now claw patterns none none
      currentHour 3 = ["You often strike task items on Thu"] := by
    unfold scoreReasons
    rw [hie, hday, hhr, hprio, hns, hcat]
    rfl
  rw [hadj, hreas]
  norm_num [min_def, max_def]
  rfl

/-- C4 counterexample: in the Thursday scenario the score is `0.7` but the
reason string is `"You often strike task items on Thu"` — built from the
abbreviation table `['Mon','Tue','Wed','Thu','Fri','Sat','Sun']` — so it
does not contain `"often strike task items on Thursday"` as claimed. -/
theorem thursday_reason_uses_abbreviation :
    calcResurfaceScore zeroDist [] 0 c4Claw c4Patterns none none 20 3 =
      (7/10, "You often strike task items on Thu") ∧
    strIn "often strike task items on Thursday"
      "You often strike task items on Thu" = false := by
  refine ⟨thursdayScoreEval zeroDist [] 0 c4Claw c4Patterns 20 rfl rfl
    (by norm_num [c4Claw]) (by decide) (by decide) (by decide), by decide⟩

/-- C4 amended: in the scenario (10 events for the item's category, 4 on
Thursday so the 30% day threshold is passed, at most 3 events within ±2
hours of the current hour, no coordinates, no priority, not expired) the
score is exactly `0.7` and the reason is
`"You often strike task items on Thu"` (abbreviated day name), which
contains `"often strike task items on Thu"` but not the full day name. -/
theorem thursday_scenario_score (dist : ℚ → ℚ → ℚ → ℚ → ℚ)
    (stores : List Store) (now : ℚ) (claw : PClaw)
    (patterns : List StrikePattern) (currentHour : ℤ)
    (hcat : claw.category = some "task") (hprio : claw.is_priority = false)
    (hexp : ¬ now > claw.expires_at) (hlen : patterns.length = 10)
    (hdow : dowMatches patterns 3 = 4)
    (hhour : hourMatches patterns currentHour ≤ 3) :
    calcResurfaceScore dist stores now claw patterns none none
        currentHour 3 = (7/10, "You often strike task items on Thu") ∧
    strIn "often strike task items on Thu"
      (calcResurfaceScore dist stores now claw patterns none none
        currentHour 3).2 = true := by
  have h := thursdayScoreEval dist stores now claw patterns currentHour
    hcat hprio hexp hlen hdow hhour
  refine ⟨h, ?_⟩
  rw [h]
  decide

/-- C4 witness: the amended scenario theorem applied at the concrete
ten-event history. -/
theorem thursday_scenario_score_witness :
    calcResurfaceScore zeroDist [] 0 c4Claw c4Patterns none none 20 3 =
      (7/10, "You often strike task items on Thu") :=
  (thursday_scenario_score zeroDist [] 0 c4Claw c4Patterns 20 rfl rfl
    (by norm_num [c4Claw]) (by decide) (by decide) (by decide)).1

/-! ## C8 -/

/-- C8: with a nonempty pattern history, an unexpired item, and the priority
variant's pre-clamp score at most 1, flipping `is_priority` changes the
returned score by exactly `+0.1` (the rules are additive and the clamp is
inactive in this range). -/
theorem priority_adds_exactly_tenth (dist : ℚ → ℚ → ℚ → ℚ → ℚ)
    (stores : List Store) (now : ℚ) (claw : PClaw)
    (patterns : List StrikePattern) (lat lng : Option ℚ)
    (currentHour currentDow : ℤ) (hne : patterns ≠ [])
    (hexp : isExpired now claw = false)
    (hpre : rawScore dist stores { claw with is_priority := true } patterns
      lat lng currentHour currentDow ≤ 1) :
    (calcResurfaceScore dist stores now { claw with is_priority := true }
        patterns lat lng currentHour currentDow).1 =
      (calcResurfaceScore dist stores now { claw with is_priority := false }
        patterns lat lng currentHour currentDow).1 + 1/10 := by
  have hloc : ∀ b : Bool,
      locRule dist stores { claw with is_priority := b } patterns lat lng =
        locRule dist stores claw patterns lat lng := fun _ => rfl
  have hraw : rawScore dist stores { claw with is_priority := true } patterns
      lat lng currentHour currentDow =
      rawScore dist stores { claw with is_priority := false } patterns
        lat lng currentHour currentDow + 1/10 := by
    simp only [rawScore, hloc]
    norm_num
  have hadj : ∀ b : Bool,
      adjScore dist stores now { claw with is_priority := b } patterns
        lat lng currentHour currentDow =
      rawScore dist stores { claw with is_priority := b } patterns
        lat lng currentHour currentDow := by
    intro b
    unfold adjScore
    rw [show isExpired now { claw with is_priority := b } = isExpired now claw
      from rfl, hexp]
    simp
  have hlbf := rawScore_lower_bound dist stores
    { claw with is_priority := false } patterns lat lng currentHour currentDow
  have hlbt := rawScore_lower_bound dist stores
    { claw with is_priority := true } patterns lat lng currentHour currentDow
  have hemp : patterns.isEmpty = false := by
    cases patterns with
    | nil => exact absurd rfl hne
    | cons a t => rfl
  unfold calcResurfaceScore
  rw [hemp]
  simp only [Bool.false_eq_true, if_false, hadj]
  rw [max_eq_right (by linarith), max_eq_right (by linarith),
    min_eq_right hpre, min_eq_right (by linarith), hraw]

/-- C8 witness: a concrete unexpired claw with an empty-match single-event
history, where the priority variant scores 0.6 and the plain one 0.5. -/
theorem priority_adds_exactly_tenth_witness :
    (calcResurfaceScore zeroDist [] 0
        { category := some "idea", is_priority := true, expires_at := 100 }
        [⟨0, 9, none⟩] none none 20 5).1 =
      (calcResurfaceScore zeroDist [] 0
        { category := some "idea", is_priority := false, expires_at := 100 }
        [⟨0, 9, none⟩] none none 20 5).1 + 1/10 := by
  have h := priority_adds_exactly_tenth zeroDist [] 0
    { category := some "idea", is_priority := false, expires_at := 100 }
    [⟨0, 9, none⟩] none none 20 5 (by decide) (by decide)
    (by norm_num [rawScore, dayRule, hourRule, locRule, scorerNearStore,
      pyTruthy, dowMatches, hourMatches, dowHit, hourHit])
  exact h

/-! ## C5 -/

theorem foldl_union_eq (l : List MClaw) :
    ∀ init : Finset String,
      l.foldl (fun acc c => acc ∪ c.tags) init =
        init ∪ (l.map MClaw.tags).foldr (· ∪ ·) ∅ := by
  induction l with
  | nil => intro init; simp
  | cons c t ih =>
    intro init
    simp only [List.foldl_cons, List.map_cons, List.foldr_cons]
    rw [ih (init ∪ c.tags), Finset.union_assoc]

theorem foldl_expiry_eq (l : List MClaw) :
    ∀ init : Option ℚ,
      l.foldl expiryStep init = maxOptExpiry (init :: l.map MClaw.expires_at) := by
  induction l with
  | nil =>
    intro init
    cases init <;> rfl
  | cons c t ih =>
    intro init
    simp only [List.foldl_cons, List.map_cons]
    rw [ih (expiryStep init c)]
    show maxOptExpiry (expiryStep init c :: t.map MClaw.expires_at) =
      maxOptExpiry (init :: c.expires_at :: t.map MClaw.expires_at)
    simp only [maxOptExpiry, List.foldr_cons]
    rcases init with _ | l
    · rcases hc : c.expires_at with _ | e <;> simp [expiryStep, hc]
    · rcases hc : c.expires_at with _ | e
      · simp [expiryStep, hc]
      · rcases hw : (t.map MClaw.expires_at).foldr
            (fun o acc =>
              match o, acc with
              | none, a => a
              | some e, none => some e
              | some e, some m => some (max e m)) none with _ | m
        · rcases le_or_lt e l with h | h
          · simp [expiryStep, hc, hw, not_lt.2 h, max_eq_left h]
          · simp [expiryStep, hc, hw, h, max_eq_right h.le]
        · rcases le_or_lt e l with h | h
          · simp only [expiryStep, hc, hw, if_neg (not_lt.2 h)]
            rw [← max_assoc, max_eq_left h]
          · simp only [expiryStep, hc, hw, if_pos h]
            rw [← max_assoc, max_eq_right h.le]

theorem updateKeep_fields (keep : MClaw) (merges : List MClaw) :
    (updateKeep keep merges).id = keep.id ∧
    (updateKeep keep merges).status = keep.status ∧
    (updateKeep keep merges).tags =
      keep.tags ∪ (merges.map MClaw.tags).foldr (· ∪ ·) ∅ ∧
    (updateKeep keep merges).expires_at =
      maxOptExpiry (keep.expires_at :: merges.map MClaw.expires_at) := by
  refine ⟨rfl, rfl, ?_, ?_⟩
  · show mergedTags keep merges = _
    exact foldl_union_eq merges keep.tags
  · show (match latestExpiry keep merges with
      | some e => some e
      | none => keep.expires_at) = _
    rw [show latestExpiry keep merges =
      maxOptExpiry (keep.expires_at :: merges.map MClaw.expires_at) from
      foldl_expiry_eq merges keep.expires_at]
    rcases hm : maxOptExpiry (keep.expires_at :: merges.map MClaw.expires_at)
      with _ | e
    · rcases hk : keep.expires_at with _ | e0
      · rfl
      · exfalso
        rw [hk] at hm
        simp [maxOptExpiry, List.foldr_cons] at hm
        rcases hw : (merges.map MClaw.expires_at).foldr
            (fun o acc =>
              match o, acc with
              | none, a => a
              | some e, none => some e
              | some e, some m => some (max e m)) none with _ | m <;>
          rw [hw] at hm <;> simp at hm
    · rfl

/-- C5: a successful merge gives the kept claw the union of all involved
tag sets and the maximum expiry among the involved items, archives every
merged claw, and leaves the kept claw active. -/
theorem merge_union_max_archive (db : List MClaw) (u k : String)
    (ms : List String) (db' : List MClaw) (keep : MClaw)
    (hkeep : (db.filter (fun c => c.id == k && c.user_id == u)).head? =
      some keep)
    (hok : mergeClaws db u k ms = .ok db')
    (hactive : keep.status = "active") :
    (updateKeep keep
        (db.filter (fun c => decide (c.id ∈ ms) && c.user_id == u))) ∈ db' ∧
    (updateKeep keep
        (db.filter (fun c => decide (c.id ∈ ms) && c.user_id == u))).id =
      keep.id ∧
    (updateKeep keep
        (db.filter (fun c => decide (c.id ∈ ms) && c.user_id == u))).status =
      "active" ∧
    (updateKeep keep
        (db.filter (fun c => decide (c.id ∈ ms) && c.user_id == u))).tags =
      keep.tags ∪
        (((db.filter (fun c => decide (c.id ∈ ms) && c.user_id == u)).map
          MClaw.tags).foldr (· ∪ ·) ∅) ∧
    (updateKeep keep
        (db.filter (fun c => decide (c.id ∈ ms) && c.user_id == u))).expires_at
      = maxOptExpiry (keep.expires_at ::
        (db.filter (fun c => decide (c.id ∈ ms) && c.user_id == u)).map
          MClaw.expires_at) ∧
    ∀ c ∈ db', c.id ∈ ms → c.user_id = u → c.status = "archived" := by
  have hf := updateKeep_fields keep
    (db.filter (fun c => decide (c.id ∈ ms) && c.user_id == u))
  unfold mergeClaws at hok
  rw [hkeep] at hok
  simp only [] at hok
  by_cases h1 : (db.filter
      (fun c => decide (c.id ∈ ms) && c.user_id == u)).length = ms.length
  swap
  · rw [if_pos h1] at hok
    exact absurd hok (by simp)
  rw [if_neg (not_not_intro h1)] at hok
  by_cases h2 : k ∈ ms
  · rw [if_pos h2] at hok
    exact absurd hok (by simp)
  rw [if_neg h2, Except.ok.injEq] at hok
  subst hok
  have hmem1 : keep ∈ db.filter (fun c => c.id == k && c.user_id == u) :=
    List.mem_of_mem_head? (by rw [hkeep]; rfl)
  have hkeepmem : keep ∈ db := List.mem_of_mem_filter hmem1
  have hkpred : (keep.id == k && keep.user_id == u) = true :=
    (List.mem_filter.mp hmem1).2
  have hkid : keep.id = k := by
    have h := hkpred
    rw [Bool.and_eq_true] at h
    exact eq_of_beq h.1
  refine ⟨?_, hf.1, hf.2.1.trans hactive, hf.2.2.1, hf.2.2.2, ?_⟩
  · have hmap := List.mem_map_of_mem
      (fun c => if c.id == k && c.user_id == u then
        updateKeep keep
          (db.filter (fun c => decide (c.id ∈ ms) && c.user_id == u))
      else if decide (c.id ∈ ms) && c.user_id == u then archiveClaw c
      else c) hkeepmem
    simp only [hkpred] at hmap
    simpa using hmap
  · intro c hc hcid hcu
    rw [List.mem_map] at hc
    obtain ⟨a, ha, hac⟩ := hc
    by_cases hb1 : (a.id == k && a.user_id == u) = true
    · rw [if_pos hb1] at hac
      subst hac
      rw [hf.1, hkid] at hcid
      exact absurd hcid h2
    · rw [if_neg hb1] at hac
      by_cases hb2 : (decide (a.id ∈ ms) && a.user_id == u) = true
      · rw [if_pos hb2] at hac
        subst hac
        rfl
      · rw [if_neg hb2] at hac
        subst hac
        exact absurd (by simp [hcid, hcu]) hb2

/-- The three-claw table of the spec's merge scenario: A with tags {"z"},
B with {"x"}, C with {"y"}, all owned by "u" and active. -/
def mergeDb : List MClaw :=
  [⟨"a", "u", {"z"}, some 5, "A", "active"⟩,
   ⟨"b", "u", {"x"}, some 9, "B", "active"⟩,
   ⟨"c", "u", {"y"}, some 7, "C", "active"⟩]

/-- The post-state of the scenario merge, as the row-wise update
`merge_claws` commits. -/
def mergeResult : List MClaw :=
  mergeDb.map (fun c =>
    if c.id == "a" && c.user_id == "u" then
      updateKeep ⟨"a", "u", {"z"}, some 5, "A", "active"⟩
        (mergeDb.filter
          (fun c => decide (c.id ∈ ["b", "c"]) && c.user_id == "u"))
    else if decide (c.id ∈ ["b", "c"]) && c.user_id == "u" then
      archiveClaw c
    else c)

theorem mergeDb_ok :
    mergeClaws mergeDb "u" "a" ["b", "c"] = Except.ok mergeResult := rfl

/-- C5 witness: the merge theorem applied to the concrete scenario
`merge(keep=A, merge=[B,C])`. -/
theorem merge_union_max_archive_witness :
    (updateKeep ⟨"a", "u", {"z"}, some 5, "A", "active"⟩
      (mergeDb.filter
        (fun c => decide (c.id ∈ ["b", "c"]) && c.user_id == "u"))).status =
      "active" :=
  (merge_union_max_archive mergeDb "u" "a" ["b", "c"] mergeResult
    ⟨"a", "u", {"z"}, some 5, "A", "active"⟩
    (by decide) mergeDb_ok rfl).2.2.1

/-! ## C6 -/

/-- C6 counterexample: a merge call with an empty `merge_claw_ids` list is
*not* rejected.  Both validations pass vacuously (`in_([])` returns no rows,
so the length check is `0 == 0`, and the self-merge check is over an empty
list), the call returns 200, and it *does* modify the keep item: its
content gets the `"[Merged 0 similar items]"` marker appended. -/
theorem empty_merge_accepted_and_modifies :
    mergeClaws [⟨"a", "u", {"z"}, some 5, "A", "active"⟩] "u" "a" [] =
      .ok [updateKeep ⟨"a", "u", {"z"}, some 5, "A", "active"⟩ []] ∧
    (updateKeep (⟨"a", "u", {"z"}, some 5, "A", "active"⟩ : MClaw) []).content =
      "A\n[Merged 0 similar items]" ∧
    ("A\n[Merged 0 similar items]" : String) ≠ "A" := by
  exact ⟨rfl, rfl, by decide⟩

/-- C6 amended: a merge call with an empty mergeIds list succeeds (no
`InvalidOperation`): it archives nothing, leaves every item's tags, expiry
and status unchanged, and only appends the `"[Merged 0 similar items]"`
marker to the keep item's content. -/
theorem empty_merge_succeeds (db : List MClaw) (u k : String) (keep : MClaw)
    (hkeep : (db.filter (fun c => c.id == k && c.user_id == u)).head? =
      some keep) :
    mergeClaws db u k [] =
      .ok (db.map (fun c =>
        if c.id == k && c.user_id == u then updateKeep keep [] else c)) ∧
    (updateKeep keep []).tags = keep.tags ∧
    (updateKeep keep []).expires_at = keep.expires_at ∧
    (updateKeep keep []).status = keep.status ∧
    (updateKeep keep []).content =
      keep.content ++ "\n[Merged 0 similar items]" := by
  have hmg : db.filter
      (fun c => decide (c.id ∈ ([] : List String)) && c.user_id == u) = [] := by
    simp
  refine ⟨?_, rfl, ?_, rfl, ?_⟩
  · unfold mergeClaws
    rw [hkeep]
    simp only [hmg, List.length_nil, ne_eq, not_true_eq_false, if_neg,
      List.not_mem_nil, if_false, Except.ok.injEq]
    simp
  · show (match latestExpiry keep [] with
      | some e => some e
      | none => keep.expires_at) = keep.expires_at
    rcases h : keep.expires_at with _ | e <;>
      simp [latestExpiry, List.foldl_nil, h]
  · show keep.content ++ "\n[Merged " ++ toString (List.length ([] : List MClaw))
      ++ " similar items]" = keep.content ++ "\n[Merged 0 similar items]"
    rw [String.append_assoc, String.append_assoc]
    rfl

/-- C6 witness: the amended theorem at the one-claw table. -/
theorem empty_merge_succeeds_witness :
    (updateKeep (⟨"a", "u", {"z"}, some 5, "A", "active"⟩ : MClaw) []).content =
      "A" ++ "\n[Merged 0 similar items]" :=
  (empty_merge_succeeds [⟨"a", "u", {"z"}, some 5, "A", "active"⟩] "u" "a"
    ⟨"a", "u", {"z"}, some 5, "A", "active"⟩ (by decide)).2.2.2.2

end ClawApp
